import Mathlib

/-!
Verification of the capture-match-alert pipeline of this repository.

The development shallowly embeds the core modules:

* `src/core/alert_system.py`    — `AlertSystem.trigger_alert`,
  `AlertSystem._capture_screenshot`, `AlertSystem.get_recent_alerts`;
* `src/core/telegram_manager.py` — `TelegramManager.send_alert`;
* `src/core/camera_manager.py`  — the `_capture_frames` read loop and the
  depth-1 frame queue (`queue.Queue(maxsize=1)` with drop-oldest publishing);
* `src/core/face_detection.py`  — `FaceDetector.recognize_faces`.

Modelling conventions: wall-clock times (`time.time()` floats) are rationals;
Python dictionaries are association lists with last-write-wins update;
external I/O (screenshot write, sound playback, channel send, file append)
is recorded as an ordered trace of explicit step values, and the outcome of
each fallible external call is an oracle parameter of the embedded function.
-/

/-! ## Alert system: data model (`src/core/alert_system.py`) -/

/-- `AlertEvent` dataclass (alert_system.py lines 18-28). -/
structure AlertEvent where
  camera_id : ℤ
  camera_name : String
  face_name : String
  confidence : ℚ
  timestamp : ℚ
  age : Option ℤ := none
  gender : Option String := none
  screenshot_path : Option String := none
  is_cooldown : Bool := false
deriving DecidableEq

/-- The detected-face record as `trigger_alert` consumes it: the `age` and
`gender` attributes of `Face` (face_detection.py lines 15-23); the embedding
is carried for the recognition stage. -/
structure Face where
  embedding : List ℚ
  age : Option ℤ := none
  gender : Option String := none
deriving DecidableEq

/-- Python dict lookup `self.last_alert_time.get(key, 0)`
(alert_system.py line 100). -/
def lookupTime : List (String × ℚ) → String → ℚ
  | [], _ => 0
  | (k, t) :: rest, key => if k = key then t else lookupTime rest key

/-- Python dict assignment `self.last_alert_time[key] = now`
(alert_system.py line 126): overwrite the existing binding or append. -/
def setTime : List (String × ℚ) → String → ℚ → List (String × ℚ)
  | [], key, t => [(key, t)]
  | (k, v) :: rest, key, t =>
      if k = key then (key, t) :: rest else (k, v) :: setTime rest key t

/-- The cooldown key `f"{camera_id}_{face_name}"` (alert_system.py line 99). -/
def alertKey (camera_id : ℤ) (face_name : String) : String :=
  toString camera_id ++ "_" ++ face_name

/-- `face_name in ("Unknown", "未知", "陌生人")` (alert_system.py line 103). -/
def isUnknownName (face_name : String) : Bool :=
  face_name = "Unknown" || face_name = "未知" || face_name = "陌生人"

/-- Python's `str.isalnum` for the characters this repository actually
feeds it: ASCII letters and digits plus CJK unified ideographs (the known
identity names and the unknown-label aliases). -/
def py_isalnum (c : Char) : Bool :=
  c.isAlphanum || (0x4E00 ≤ c.toNat && c.toNat ≤ 0x9FFF)

/-- The alias collapse of `_capture_screenshot` (alert_system.py lines
226-233): any of the four unknown-label aliases becomes `"unknown"`. -/
def screenshot_label (face_name : String) : String :=
  if face_name = "未知" || face_name = "unknown" ||
     face_name = "Unknown" || face_name = "陌生人" then "unknown"
  else face_name

/-- The character sanitization of `_capture_screenshot` (alert_system.py
lines 236-239): each non-alphanumeric character is replaced by an
underscore. -/
def sanitize_chars (label : String) : String :=
  String.mk (label.data.map (fun c => if py_isalnum c then c else '_'))

/-- `safe_name` after the empty-string fallback (alert_system.py lines
236-242). -/
def safe_label (label : String) : String :=
  let s := sanitize_chars label
  if s = "" then "unknown" else s

/-- The screenshot filename (alert_system.py line 244), with the
`time.strftime` output passed in as `tsStr`. -/
def screenshot_filename (tsStr : String) (camera_id : ℤ) (face_name : String) :
    String :=
  tsStr ++ "_cam" ++ toString camera_id ++ "_" ++
    safe_label (screenshot_label face_name) ++ ".jpg"

/-- The sound chosen by `_play_alert_sound` (alert_system.py line 198). -/
def alert_sound_choice (alert_sound unknown_alert_sound : String)
    (is_unknown : Bool) : String :=
  if is_unknown then unknown_alert_sound else alert_sound

/-- One externally visible step of `trigger_alert`, in program order.
`setLast` is the cooldown-table write at line 126; the remaining steps are
the I/O attempts (screenshot write, sound playback, Telegram hand-off). -/
inductive AlertStep
  | setLast (key : String) (t : ℚ)
  | captureScreenshot (filename : String)
  | playSound (path : String)
  | telegramSend (face_name : String) (image : Option String)
deriving DecidableEq

/-- The mutable fields of `AlertSystem` that `trigger_alert` reads or
writes (alert_system.py lines 42-78). -/
structure AlertSystemState where
  alert_sound : String
  unknown_alert_sound : String
  screenshot_dir : String
  alert_history : List AlertEvent
  alert_enabled : Bool
  screenshot_enabled : Bool
  last_alert_time : List (String × ℚ)
  alert_cooldown : ℚ
  telegram_enabled : Bool
deriving DecidableEq

/-- `AlertSystem.trigger_alert` (alert_system.py lines 80-185).

Oracle parameters: `now` is `time.time()`, `tsStr` the `time.strftime`
rendering of `now` used in the screenshot filename, and `writeOk` the
success of `cv2.imwrite` (a failing write makes `_capture_screenshot`
return `None`, lines 251-254).  Returns the new state, the created
`AlertEvent`, and the ordered trace of cooldown-table-write and I/O steps. -/
def trigger_alert (s : AlertSystemState) (camera_id : ℤ)
    (camera_name face_name : String) (face : Face) (confidence : ℚ)
    (now : ℚ) (tsStr : String) (writeOk : Bool) :
    AlertSystemState × AlertEvent × List AlertStep :=
  let key := alertKey camera_id face_name
  let last := lookupTime s.last_alert_time key
  let in_cooldown := now - last < s.alert_cooldown
  let is_unknown := isUnknownName face_name
  if in_cooldown then
    -- lines 106-123: record only, no screenshot, no sound, no Telegram,
    -- no cooldown-table update
    let event : AlertEvent :=
      { camera_id := camera_id, camera_name := camera_name,
        face_name := face_name, age := face.age, gender := face.gender,
        confidence := confidence, timestamp := now,
        screenshot_path := none, is_cooldown := true }
    ({ s with alert_history := s.alert_history ++ [event] }, event, [])
  else
    -- line 126: the cooldown-table write precedes every I/O attempt
    let s1 := { s with last_alert_time := setTime s.last_alert_time key now }
    -- lines 132-135 and 208-257: screenshot capture
    let filename := screenshot_filename tsStr camera_id face_name
    let screenshot_path : Option String :=
      if s.screenshot_enabled then
        (if writeOk then some (s.screenshot_dir ++ "/" ++ filename) else none)
      else none
    let event : AlertEvent :=
      { camera_id := camera_id, camera_name := camera_name,
        face_name := face_name, age := face.age, gender := face.gender,
        confidence := confidence, timestamp := now,
        screenshot_path := screenshot_path, is_cooldown := false }
    let trace :=
      [AlertStep.setLast key now] ++
      (if s.screenshot_enabled then [AlertStep.captureScreenshot filename]
       else []) ++
      (if s.alert_enabled then
        [AlertStep.playSound
          (alert_sound_choice s.alert_sound s.unknown_alert_sound is_unknown)]
       else []) ++
      (if s.telegram_enabled then
        [AlertStep.telegramSend face_name screenshot_path]
       else [])
    ({ s1 with alert_history := s1.alert_history ++ [event] }, event, trace)

/-- `AlertSystem.get_recent_alerts` (alert_system.py lines 263-269):
a stable descending sort of `alert_history` by timestamp, truncated to
`limit`; the state is returned unchanged because the method only reads. -/
def get_recent_alerts (s : AlertSystemState) (limit : ℕ) :
    AlertSystemState × List AlertEvent :=
  (s,
    (s.alert_history.mergeSort
      (fun a b => decide (b.timestamp ≤ a.timestamp))).take limit)

/-! ## Notification dispatch (`src/core/telegram_manager.py`) -/

/-- Outcome of a fallible external Telegram call: success, a caught
`TelegramError`, or any other exception. -/
inductive TgOutcome
  | ok
  | tgError
  | exnError
deriving DecidableEq

/-- One externally visible step of `TelegramManager.send_alert`. -/
inductive TgStep
  | sendPhoto (caption : String) (image : String)
  | sendMessage (text : String)
  | appendFailedLog (line : String)
  | backupImage (src : String)
deriving DecidableEq

/-- The mutable fields of `TelegramManager` that `send_alert` reads or
writes (telegram_manager.py lines 12-18); `failed_log` models the lines of
the append-only `failed_alerts.log`. -/
structure TMState where
  bot_ready : Bool
  last_sent : ℚ
  min_interval : ℚ
  failed_log : List String
deriving DecidableEq

/-- The failure fallback of `send_alert` (telegram_manager.py lines 70-84):
append one line to `failed_alerts.log` and, when an image was supplied,
move it into the backup directory. -/
def tg_failure_fallback (s : TMState) (message : String)
    (image_path : Option String) (ctime : String) (pre : List TgStep) :
    TMState × List TgStep :=
  let line := ctime ++ ": " ++ message ++ "\n"
  ({ s with failed_log := s.failed_log ++ [line] },
    pre ++ [TgStep.appendFailedLog line] ++
      (match image_path with
       | some p => [TgStep.backupImage p]
       | none => []))

/-- The `_send` coroutine plus the surrounding try/except
(telegram_manager.py lines 40-84).

`image_exists` models `image_path.exists()`; `send_outcome` is the result
of the one channel call actually made.  When the bot is still `None` (its
connection attempt was caught at lines 26-28), the attribute access
`self.bot.send_message` raises before any channel call, escapes `_send`,
and lands in the outer handler — hence the fallback path with no send
step. -/
def tg_send_phase (s : TMState) (message : String)
    (image_path : Option String) (image_exists : Bool) (now : ℚ)
    (ctime : String) (send_outcome : TgOutcome) : TMState × List TgStep :=
  if now - s.last_sent < s.min_interval then
    -- lines 44-46: hard rate limit, the message is dropped
    (s, [])
  else if s.bot_ready = false then
    tg_failure_fallback s message image_path ctime []
  else
    -- lines 48-61: photo with caption when the image exists, else text
    let attempt : TgStep :=
      match image_path, image_exists with
      | some p, true => TgStep.sendPhoto message p
      | some _, false => TgStep.sendMessage message
      | none, _ => TgStep.sendMessage message
    match send_outcome with
    | TgOutcome.ok =>
        -- line 62: `last_sent` updated only after a successful send
        ({ s with last_sent := now }, [attempt])
    | TgOutcome.tgError =>
        -- lines 64-65: `TelegramError` is caught inside `_send` and only
        -- logged; the fallback file is not touched
        (s, [attempt])
    | TgOutcome.exnError =>
        tg_failure_fallback s message image_path ctime [attempt]

/-- `TelegramManager.send_alert` (telegram_manager.py lines 30-84).

`connect_outcome` is the result of `_initialize_bot` when the bot is still
`None`: on success the bot is set; a `TelegramError` is caught inside that
coroutine leaving the bot `None` (lines 26-28); any other exception is
caught at lines 36-38 and the method returns at once. -/
def send_alert (s : TMState) (message : String) (image_path : Option String)
    (image_exists : Bool) (now : ℚ) (ctime : String)
    (connect_outcome send_outcome : TgOutcome) : TMState × List TgStep :=
  if s.bot_ready then
    tg_send_phase s message image_path image_exists now ctime send_outcome
  else
    match connect_outcome with
    | TgOutcome.ok =>
        tg_send_phase { s with bot_ready := true } message image_path
          image_exists now ctime send_outcome
    | TgOutcome.tgError =>
        tg_send_phase s message image_path image_exists now ctime send_outcome
    | TgOutcome.exnError => (s, [])

/-! ## Capture loop and frame slot (`src/core/camera_manager.py`) -/

/-- `put` into the depth-1 frame queue (camera_manager.py lines 168-174):
when the queue is full the stale frame is dropped with `get_nowait`, then
the new frame is put; the producer never waits. -/
def slot_put {α : Type} (slot : Option α) (f : α) : Option α :=
  match slot with
  | some _ => some f
  | none => some f

/-- `CameraManager.get_frame` on the camera's queue (camera_manager.py
lines 183-190): `get_nowait` returns the held frame and empties the slot,
or returns `None` when the slot is empty. -/
def slot_tryGet {α : Type} (slot : Option α) : Option α × Option α :=
  match slot with
  | some f => (some f, none)
  | none => (none, none)

/-- One externally visible action of a capture-loop iteration. -/
inductive CapAction
  | sleep (seconds : ℕ)
  | rotateFrame (degrees : ℕ)
  | publish
  | seekToStart
deriving DecidableEq

/-- One iteration of the `_capture_frames` read loop (camera_manager.py
lines 153-174).  Returns whether the loop continues, the new slot content,
and the trace of actions.  A failed read (lines 155-158) logs, sleeps one
second and retries — the handling does not depend on the kind of source. -/
def capture_iteration {α : Type} (stopSet read_ok : Bool) (new_frame : α)
    (rot : ℕ) (slot : Option α) : Bool × Option α × List CapAction :=
  if stopSet then (false, slot, [])
  else if read_ok = false then (true, slot, [CapAction.sleep 1])
  else
    let rotActs :=
      if rot = 90 || rot = 180 || rot = 270 then [CapAction.rotateFrame rot]
      else []
    (true, slot_put slot new_frame, rotActs ++ [CapAction.publish])

/-- Following the spec's words (§4.1): on a failed read, a finite-file
source seeks back to the start (loop playback), a live device sleeps a
fixed one-second backoff.  Stated for comparison with the read-failure
handling actually found at camera_manager.py lines 155-158. -/
def spec_read_failure_actions (is_finite_file : Bool) : List CapAction :=
  if is_finite_file then [CapAction.seekToStart] else [CapAction.sleep 1]

/-! ## Recognition and matching (`src/core/face_detection.py`) -/

/-- `KnownFace` dataclass (face_detection.py lines 26-30). -/
structure KnownFace where
  name : String
  embedding : List ℚ
  image_path : String
deriving DecidableEq

/-- `np.dot` on equal-length vectors. -/
def np_dot (a b : List ℚ) : ℚ := (List.zipWith (fun x y => x * y) a b).sum

/-- Exact rational square root on the perfect squares this development
evaluates it at; the floating-point `np.linalg.norm` is idealized by this
function applied to the squared norm. -/
def ratSqrt (q : ℚ) : ℚ := (Nat.sqrt q.num.toNat : ℚ) / (Nat.sqrt q.den : ℚ)

/-- `np.linalg.norm` of a vector. -/
def np_norm (a : List ℚ) : ℚ := ratSqrt (np_dot a a)

/-- The cosine similarity of face_detection.py lines 148-150. -/
def cosine_sim (known face : List ℚ) : ℚ :=
  np_dot known face / (np_norm known * np_norm face)

/-- Accumulator loop behind `np.argmax`: scan the remaining scores with a
strict comparison so the first occurrence of the maximum wins. -/
def argmax_aux : List ℚ → ℕ → ℕ → ℚ → ℕ × ℚ
  | [], _, bi, bv => (bi, bv)
  | x :: xs, i, bi, bv =>
      if bv < x then argmax_aux xs (i + 1) i x else argmax_aux xs (i + 1) bi bv

/-- `np.argmax` returning the first maximising index together with the
maximum value (`max_idx`, `max_similarity` of face_detection.py lines
152-153). -/
def np_argmax : List ℚ → ℕ × ℚ
  | [] => (0, 0)
  | x :: xs => argmax_aux xs 1 0 x

/-- `FaceDetector.recognize_faces` (face_detection.py lines 131-165):
an empty gallery maps every face to `(face, None, 0.0)`; otherwise each
face with a non-empty embedding is matched against the gallery by maximum
cosine similarity under a strict threshold comparison (lines 152-159). -/
def recognize_faces (known_faces : List KnownFace) (threshold : ℚ)
    (faces : List Face) : List (Face × Option KnownFace × ℚ) :=
  if known_faces = [] then faces.map (fun f => (f, none, 0))
  else
    faces.map (fun face =>
      if face.embedding = [] then (face, none, 0)
      else
        let sims :=
          known_faces.map (fun kf => cosine_sim kf.embedding face.embedding)
        let m := np_argmax sims
        if threshold < m.2 then
          (face, known_faces.get? m.1, m.2)
        else
          (face, none, m.2))

/-! ## Helper lemmas -/

/-- Updating the cooldown table and reading the same key back yields the
written time. -/
theorem lookupTime_setTime_self (l : List (String × ℚ)) (key : String)
    (t : ℚ) : lookupTime (setTime l key t) key = t := by
  induction l with
  | nil => simp [setTime, lookupTime]
  | cons p rest ih =>
      obtain ⟨k, v⟩ := p
      by_cases h : k = key <;> simp [setTime, lookupTime, h, ih]

/-- Appending to a common left part is injective for strings. -/
theorem string_append_left_cancel {p a b : String} (h : p ++ a = p ++ b) :
    a = b := by
  apply String.ext
  have h2 := congrArg String.data h
  simp only [String.data_append] at h2
  exact List.append_cancel_left h2

/-- Distinct face names give distinct cooldown keys for the same camera. -/
theorem alertKey_ne_of_ne (camera_id : ℤ) {a b : String} (h : a ≠ b) :
    alertKey camera_id a ≠ alertKey camera_id b := by
  intro heq
  exact h (string_append_left_cancel heq)

/-- A state used to instantiate witnesses and counterexamples: cooldown ten
seconds, no sound, no screenshots, no Telegram, empty history. -/
def sampleState : AlertSystemState :=
  { alert_sound := "alert.wav", unknown_alert_sound := "stranger.wav",
    screenshot_dir := "screenshots", alert_history := [],
    alert_enabled := false, screenshot_enabled := false,
    last_alert_time := [], alert_cooldown := 10, telegram_enabled := false }

/-! ## Claim C5 — capture-loop read-failure handling -/

/-- C5 counterexample: on a failed read the capture loop of
`_capture_frames` performs a one-second sleep — not the seek-to-start that
the claim asserts for finite-file sources.  The spec-following definition
expects a seek for a file source, and the two actions differ. -/
theorem C5_counterexample :
    capture_iteration false false (0 : ℕ) 0 none =
      (true, none, [CapAction.sleep 1]) ∧
    spec_read_failure_actions true = [CapAction.seekToStart] ∧
    ([CapAction.sleep 1] : List CapAction) ≠ [CapAction.seekToStart] := by
  refine ⟨rfl, rfl, by decide⟩

/-- C5 amended: in the `_capture_frames` read loop, whenever a frame read
fails (and no stop was signalled) the worker sleeps a fixed one-second
backoff and retries without terminating the loop and without touching the
frame slot, regardless of whether the source is a finite file or a live
device; no seek-to-start loop playback exists. -/
theorem C5_read_failure_backoff {α : Type} (new_frame : α) (rot : ℕ)
    (slot : Option α) :
    capture_iteration false false new_frame rot slot =
      (true, slot, [CapAction.sleep 1]) := rfl

/-! ## Claim C6 — frame-slot drop-oldest semantics -/

/-- C6: publishing `f1` then `f2` into a camera's frame slot without an
intervening read makes `get_frame` return `f2`, and a second `get_frame`
returns empty; `put` is total and always leaves the slot holding the new
frame, so the producer is never blocked by an unread frame. -/
theorem C6_frame_slot_drop_oldest {α : Type} (slot : Option α) (f1 f2 : α) :
    slot_tryGet (slot_put (slot_put slot f1) f2) = (some f2, none) ∧
    slot_tryGet (slot_tryGet (slot_put (slot_put slot f1) f2)).2 =
      (none, none) ∧
    (∀ (s : Option α) (f : α), slot_put s f = some f) := by
  refine ⟨?_, ?_, ?_⟩
  · cases slot <;> rfl
  · cases slot <;> rfl
  · intro s f; cases s <;> rfl

/-! ## Claim C9 — screenshot filename sanitization -/

/-- C9: in the screenshot filename of `_capture_screenshot`, every
non-alphanumeric character of the label is replaced by an underscore — the
label `A/B*C` yields the fragment `A_B_C` and the corresponding filename —
and a label that is empty after sanitization falls back to the fragment
`unknown`. -/
theorem C9_filename_sanitization :
    sanitize_chars "A/B*C" = "A_B_C" ∧
    (∀ tsStr : String, ∀ camera_id : ℤ,
       screenshot_filename tsStr camera_id "A/B*C" =
         tsStr ++ "_cam" ++ toString camera_id ++ "_" ++ "A_B_C" ++ ".jpg") ∧
    (∀ (label : String) (i : ℕ) (c : Char),
       label.data.get? i = some c → py_isalnum c = false →
       (sanitize_chars label).data.get? i = some '_') ∧
    (∀ label : String, sanitize_chars label = "" →
       safe_label label = "unknown") := by
  refine ⟨by decide, ?_, ?_, ?_⟩
  · intro tsStr camera_id
    have h1 : screenshot_label "A/B*C" = "A/B*C" := by decide
    have h2 : safe_label "A/B*C" = "A_B_C" := by decide
    simp [screenshot_filename, h1, h2]
  · intro label i c hget halnum
    have hget' : label.data[i]? = some c := by
      simpa [List.get?_eq_getElem?] using hget
    simp [sanitize_chars, List.get?_eq_getElem?, List.getElem?_map, hget',
      halnum]
  · intro label h
    simp [safe_label, h]

/-- C9 witness: the general sanitization clauses evaluated at the slash of
the label `A/B*C` and at the empty label. -/
theorem C9_filename_sanitization_witness :
    ("A/B*C" : String).data.get? 1 = some '/' ∧ py_isalnum '/' = false ∧
    (sanitize_chars "A/B*C").data.get? 1 = some '_' ∧
    sanitize_chars "" = "" ∧ safe_label "" = "unknown" :=
  ⟨by decide, by decide,
    C9_filename_sanitization.2.2.1 "A/B*C" 1 '/' (by decide) (by decide),
    by decide, C9_filename_sanitization.2.2.2 "" (by decide)⟩

/-! ## Claim C2 — canonicalization of the unknown-label aliases -/

/-- C2 counterexample: the aliases are not keyed or sounded identically.
The cooldown key embeds the raw face name, so `Unknown` and `unknown` give
different keys for the same camera; and the strangeness test
`face_name in ("Unknown", "未知", "陌生人")` omits lowercase `unknown`, so
that alias selects the known-person sound while `Unknown` selects the
stranger sound. -/
theorem C2_counterexample :
    alertKey 1 "Unknown" ≠ alertKey 1 "unknown" ∧
    alert_sound_choice "alert.wav" "stranger.wav" (isUnknownName "Unknown") =
      "stranger.wav" ∧
    alert_sound_choice "alert.wav" "stranger.wav" (isUnknownName "unknown") =
      "alert.wav" ∧
    ("stranger.wav" : String) ≠ "alert.wav" := by
  refine ⟨by decide, by decide, by decide, by decide⟩

/-- C2 amended: the four aliases `Unknown`, `unknown`, `未知`, `陌生人` all
collapse to the identical screenshot filename label `unknown`; but the
cooldown key embeds the raw face name, so for every camera the four aliases
give four pairwise distinct keys in `last_alert_time`; and only `Unknown`,
`未知` and `陌生人` select the stranger sound `unknown_alert_sound`, while
lowercase `unknown` selects the known-person `alert_sound`. -/
theorem C2_alias_canonicalization (camera_id : ℤ)
    (alert_sound unknown_alert_sound : String) :
    (screenshot_label "Unknown" = "unknown" ∧
     screenshot_label "unknown" = "unknown" ∧
     screenshot_label "未知" = "unknown" ∧
     screenshot_label "陌生人" = "unknown") ∧
    List.Pairwise (fun a b => alertKey camera_id a ≠ alertKey camera_id b)
      ["Unknown", "unknown", "未知", "陌生人"] ∧
    (alert_sound_choice alert_sound unknown_alert_sound
        (isUnknownName "Unknown") = unknown_alert_sound ∧
     alert_sound_choice alert_sound unknown_alert_sound
        (isUnknownName "未知") = unknown_alert_sound ∧
     alert_sound_choice alert_sound unknown_alert_sound
        (isUnknownName "陌生人") = unknown_alert_sound ∧
     alert_sound_choice alert_sound unknown_alert_sound
        (isUnknownName "unknown") = alert_sound) := by
  refine ⟨⟨by decide, by decide, by decide, by decide⟩, ?_, ?_⟩
  · refine List.Pairwise.cons ?_ (List.Pairwise.cons ?_
      (List.Pairwise.cons ?_ (List.pairwise_singleton _ _)))
    all_goals
      intro b hb
      fin_cases hb <;> exact alertKey_ne_of_ne camera_id (by decide)
  · have h1 : isUnknownName "Unknown" = true := by decide
    have h2 : isUnknownName "未知" = true := by decide
    have h3 : isUnknownName "陌生人" = true := by decide
    have h4 : isUnknownName "unknown" = false := by decide
    exact ⟨by simp [alert_sound_choice, h1], by simp [alert_sound_choice, h2],
      by simp [alert_sound_choice, h3], by simp [alert_sound_choice, h4]⟩

/-! ## Claim C1 — cooldown window between two calls -/

/-- C1 counterexample: the cooldown is measured from the last *fired*
alert, not from the previous call.  Three calls on the key of camera 1 and
face `Alice` with a ten-second cooldown: the call at t=1000 fires, the call
at t=1009 is suppressed, and the call at t=1011 — only two seconds after
the previous call at t=1009 — fires with `is_cooldown = false`, although
the claim requires `isCooldown = true` for any two calls on the key less
than ten seconds apart. -/
theorem C1_counterexample :
    (1011 : ℚ) - 1009 < 10 ∧
    (trigger_alert
      (trigger_alert
        (trigger_alert sampleState 1 "Cam" "Alice" ⟨[], none, none⟩ (9/10)
          1000 "t" true).1
        1 "Cam" "Alice" ⟨[], none, none⟩ (9/10) 1009 "t" true).1
      1 "Cam" "Alice" ⟨[], none, none⟩ (9/10) 1011 "t" true).2.1.is_cooldown
      = false := by
  constructor
  · norm_num
  · norm_num [trigger_alert, sampleState, lookupTime, setTime]

/-- C1 amended: for every key and two *consecutive* calls to
`trigger_alert` on that key at times `t1 < t2` where the first call fires
(`is_cooldown = false`): if `t2 - t1 < alert_cooldown` the second call
returns an event with `is_cooldown = true` and leaves `last_alert_time`
for the key at `t1`; if `t2 - t1 ≥ alert_cooldown` the second call fires
and updates `last_alert_time` for the key to `t2`. -/
theorem C1_consecutive_cooldown (s : AlertSystemState) (camera_id : ℤ)
    (cn1 cn2 face_name : String) (f1 f2 : Face) (c1 c2 t1 t2 : ℚ)
    (ts1 ts2 : String) (w1 w2 : Bool) (hlt : t1 < t2)
    (hfire : (trigger_alert s camera_id cn1 face_name f1 c1 t1 ts1
        w1).2.1.is_cooldown = false) :
    (t2 - t1 < s.alert_cooldown →
      (trigger_alert
          (trigger_alert s camera_id cn1 face_name f1 c1 t1 ts1 w1).1
          camera_id cn2 face_name f2 c2 t2 ts2 w2).2.1.is_cooldown = true ∧
      lookupTime
        (trigger_alert
          (trigger_alert s camera_id cn1 face_name f1 c1 t1 ts1 w1).1
          camera_id cn2 face_name f2 c2 t2 ts2 w2).1.last_alert_time
        (alertKey camera_id face_name) = t1) ∧
    (s.alert_cooldown ≤ t2 - t1 →
      (trigger_alert
          (trigger_alert s camera_id cn1 face_name f1 c1 t1 ts1 w1).1
          camera_id cn2 face_name f2 c2 t2 ts2 w2).2.1.is_cooldown = false ∧
      lookupTime
        (trigger_alert
          (trigger_alert s camera_id cn1 face_name f1 c1 t1 ts1 w1).1
          camera_id cn2 face_name f2 c2 t2 ts2 w2).1.last_alert_time
        (alertKey camera_id face_name) = t2) := by
  by_cases hc : t1 - lookupTime s.last_alert_time
      (alertKey camera_id face_name) < s.alert_cooldown
  · exfalso
    simp [trigger_alert, hc] at hfire
  · constructor
    · intro h2
      constructor
      · simp [trigger_alert, hc, lookupTime_setTime_self, h2]
      · simp [trigger_alert, hc, lookupTime_setTime_self, h2]
    · intro h2
      have h2' : ¬ (t2 - t1 < s.alert_cooldown) := not_lt.mpr h2
      constructor
      · simp [trigger_alert, hc, lookupTime_setTime_self, h2']
      · simp [trigger_alert, hc, lookupTime_setTime_self, h2']

/-- C1 witness: the amended cooldown statement evaluated on a fresh system
with a ten-second cooldown and consecutive calls at t=1000 and t=1009. -/
theorem C1_consecutive_cooldown_witness :
    (1000 : ℚ) < 1009 ∧
    (trigger_alert sampleState 1 "Cam" "Alice" ⟨[], none, none⟩ (9/10) 1000
      "t" true).2.1.is_cooldown = false ∧
    (1009 : ℚ) - 1000 < sampleState.alert_cooldown ∧
    ((trigger_alert
        (trigger_alert sampleState 1 "Cam" "Alice" ⟨[], none, none⟩ (9/10)
          1000 "t" true).1
        1 "Cam" "Alice" ⟨[], none, none⟩ (9/10) 1009 "t"
        true).2.1.is_cooldown = true ∧
      lookupTime
        (trigger_alert
          (trigger_alert sampleState 1 "Cam" "Alice" ⟨[], none, none⟩ (9/10)
            1000 "t" true).1
          1 "Cam" "Alice" ⟨[], none, none⟩ (9/10) 1009 "t"
          true).1.last_alert_time (alertKey 1 "Alice") = 1000) :=
  ⟨by norm_num,
   by norm_num [trigger_alert, sampleState, lookupTime],
   by norm_num [sampleState],
   (C1_consecutive_cooldown sampleState 1 "Cam" "Cam" "Alice"
      ⟨[], none, none⟩ ⟨[], none, none⟩ (9/10) (9/10) 1000 1009 "t" "t"
      true true (by norm_num)
      (by norm_num [trigger_alert, sampleState, lookupTime])).1
    (by norm_num [sampleState])⟩

/-! ## Claim C3 — cooldown events do no I/O, fired events stamp first -/

/-- C3: every `trigger_alert` call either returns a cooldown event — no
screenshot path, an empty I/O trace, `last_alert_time` untouched — or a
fired event, in which case the first step of the trace is the
`last_alert_time` write for the event's key at the current time, before any
screenshot, sound or notification step, and the table afterwards holds
`now` at that key. -/
theorem C3_cooldown_io_invariant (s : AlertSystemState) (camera_id : ℤ)
    (camera_name face_name : String) (face : Face) (confidence now : ℚ)
    (tsStr : String) (writeOk : Bool)
    (r : AlertSystemState × AlertEvent × List AlertStep)
    (hr : trigger_alert s camera_id camera_name face_name face confidence
        now tsStr writeOk = r) :
    (r.2.1.is_cooldown = true →
       r.2.1.screenshot_path = none ∧ r.2.2 = [] ∧
       r.1.last_alert_time = s.last_alert_time) ∧
    (r.2.1.is_cooldown = false →
       r.2.2.head? = some (AlertStep.setLast (alertKey camera_id face_name)
         now) ∧
       lookupTime r.1.last_alert_time (alertKey camera_id face_name) =
         now) := by
  subst hr
  by_cases hc : now - lookupTime s.last_alert_time
      (alertKey camera_id face_name) < s.alert_cooldown
  · constructor
    · intro _
      refine ⟨?_, ?_, ?_⟩ <;> simp [trigger_alert, hc]
    · intro hfalse
      simp [trigger_alert, hc] at hfalse
  · constructor
    · intro htrue
      simp [trigger_alert, hc] at htrue
    · intro _
      constructor
      · simp [trigger_alert, hc]
      · simp [trigger_alert, hc, lookupTime_setTime_self]

/-- C3 witness: the cooldown side of the invariant evaluated on a
suppressed second call nine seconds after a fired one. -/
theorem C3_cooldown_io_invariant_witness :
    (trigger_alert
      (trigger_alert sampleState 1 "Cam" "Alice" ⟨[], none, none⟩ (9/10)
        1000 "t" true).1
      1 "Cam" "Alice" ⟨[], none, none⟩ (9/10) 1009 "t"
      true).2.1.is_cooldown = true ∧
    ((trigger_alert
        (trigger_alert sampleState 1 "Cam" "Alice" ⟨[], none, none⟩ (9/10)
          1000 "t" true).1
        1 "Cam" "Alice" ⟨[], none, none⟩ (9/10) 1009 "t"
        true).2.1.screenshot_path = none ∧
     (trigger_alert
        (trigger_alert sampleState 1 "Cam" "Alice" ⟨[], none, none⟩ (9/10)
          1000 "t" true).1
        1 "Cam" "Alice" ⟨[], none, none⟩ (9/10) 1009 "t" true).2.2 = [] ∧
     (trigger_alert
        (trigger_alert sampleState 1 "Cam" "Alice" ⟨[], none, none⟩ (9/10)
          1000 "t" true).1
        1 "Cam" "Alice" ⟨[], none, none⟩ (9/10) 1009 "t"
        true).1.last_alert_time =
       (trigger_alert sampleState 1 "Cam" "Alice" ⟨[], none, none⟩ (9/10)
         1000 "t" true).1.last_alert_time) :=
  ⟨by norm_num [trigger_alert, sampleState, lookupTime, setTime],
   (C3_cooldown_io_invariant _ 1 "Cam" "Alice" ⟨[], none, none⟩ (9/10) 1009
      "t" true _ rfl).1
    (by norm_num [trigger_alert, sampleState, lookupTime, setTime])⟩

/-! ## Claim C4 — fallback log on channel failure -/

/-- C4 counterexample: when `bot.send_message` raises a `TelegramError`,
the handler inside `_send` (telegram_manager.py lines 64-65) only logs it —
`failed_alerts.log` gains no line at all, while the claim requires exactly
one line containing the message. -/
theorem C4_counterexample :
    (send_alert ⟨true, 0, 5, []⟩ "M" none false 100 "ct" TgOutcome.ok
      TgOutcome.tgError).1.failed_log = [] := by
  norm_num [send_alert, tg_send_phase]

/-- C4 amended: for a call with message `M` and no image on an initialized
channel outside the rate-limit window: if the channel call raises a
non-`TelegramError` exception, exactly one line containing `M` is appended
to `failed_alerts.log`; if it raises a `TelegramError`, the error is caught
and only logged, leaving `failed_alerts.log` unchanged.  In both cases the
call returns normally, so no exception reaches the caller. -/
theorem C4_failed_alert_fallback (s : TMState) (message : String) (now : ℚ)
    (ctime : String) (co so : TgOutcome) (hb : s.bot_ready = true)
    (hrate : ¬ now - s.last_sent < s.min_interval) :
    (so = TgOutcome.exnError →
      (send_alert s message none false now ctime co so).1.failed_log =
        s.failed_log ++ [ctime ++ ": " ++ message ++ "\n"] ∧
      (∃ pre post : String,
        ctime ++ ": " ++ message ++ "\n" = pre ++ message ++ post)) ∧
    (so = TgOutcome.tgError →
      (send_alert s message none false now ctime co so).1.failed_log =
        s.failed_log) := by
  constructor
  · intro hso
    subst hso
    constructor
    · simp [send_alert, tg_send_phase, tg_failure_fallback, hb, hrate]
    · exact ⟨ctime ++ ": ", "\n", rfl⟩
  · intro hso
    subst hso
    simp [send_alert, tg_send_phase, hb, hrate]

/-- C4 witness: the amended fallback statement evaluated at a ready
channel, message `M`, rate limit five seconds, last send at time zero and
a call at time 100. -/
theorem C4_failed_alert_fallback_witness :
    (⟨true, 0, 5, []⟩ : TMState).bot_ready = true ∧
    ¬ (100 : ℚ) - (⟨true, 0, 5, []⟩ : TMState).last_sent <
      (⟨true, 0, 5, []⟩ : TMState).min_interval ∧
    ((send_alert ⟨true, 0, 5, []⟩ "M" none false 100 "ct" TgOutcome.ok
        TgOutcome.exnError).1.failed_log =
      [] ++ ["ct" ++ ": " ++ "M" ++ "\n"] ∧
     (∃ pre post : String,
        "ct" ++ ": " ++ "M" ++ "\n" = pre ++ "M" ++ post)) :=
  ⟨rfl, by norm_num,
   (C4_failed_alert_fallback ⟨true, 0, 5, []⟩ "M" 100 "ct" TgOutcome.ok
      TgOutcome.exnError rfl (by norm_num)).1 rfl⟩

/-! ## Claim C8 — notification rate limit and `last_sent` update -/

/-- C8: on an initialized channel, a `send_alert` call inside the
rate-limit window is a complete no-op — no channel call, no fallback write,
state unchanged, so the message is dropped rather than queued; outside the
window the first step of the trace is the one delivery attempt (photo with
caption when an existing image is supplied, else text), and `last_sent`
becomes `now` exactly when that attempt succeeds, staying unchanged on
either kind of failure. -/
theorem C8_rate_limit (s : TMState) (message : String)
    (image_path : Option String) (image_exists : Bool) (now : ℚ)
    (ctime : String) (co so : TgOutcome) (hb : s.bot_ready = true) :
    (now - s.last_sent < s.min_interval →
      send_alert s message image_path image_exists now ctime co so =
        (s, [])) ∧
    (¬ now - s.last_sent < s.min_interval →
      ((∃ p, (send_alert s message image_path image_exists now ctime co
          so).2.head? = some (TgStep.sendPhoto message p)) ∨
        (send_alert s message image_path image_exists now ctime co
          so).2.head? = some (TgStep.sendMessage message)) ∧
      (so = TgOutcome.ok →
        (send_alert s message image_path image_exists now ctime co
          so).1.last_sent = now) ∧
      (so ≠ TgOutcome.ok →
        (send_alert s message image_path image_exists now ctime co
          so).1.last_sent = s.last_sent)) := by
  constructor
  · intro h
    simp [send_alert, tg_send_phase, hb, h]
  · intro h
    refine ⟨?_, ?_, ?_⟩
    · cases himg : image_path with
      | none =>
          right
          cases so <;>
            simp [send_alert, tg_send_phase, tg_failure_fallback, hb, h]
      | some p =>
          cases hex : image_exists
          · right
            cases so <;>
              simp [send_alert, tg_send_phase, tg_failure_fallback, hb, h]
          · left
            refine ⟨p, ?_⟩
            cases so <;>
              simp [send_alert, tg_send_phase, tg_failure_fallback, hb, h]
    · intro hso
      subst hso
      simp [send_alert, tg_send_phase, hb, h]
    · intro hso
      cases so with
      | ok => exact absurd rfl hso
      | tgError => simp [send_alert, tg_send_phase, hb, h]
      | exnError =>
          simp [send_alert, tg_send_phase, tg_failure_fallback, hb, h]

/-- C8 witness: the rate-limit statement evaluated at a ready channel with
rate limit five seconds, last send at time zero and a successful text send
at time 100. -/
theorem C8_rate_limit_witness :
    ¬ (100 : ℚ) - (⟨true, 0, 5, []⟩ : TMState).last_sent <
      (⟨true, 0, 5, []⟩ : TMState).min_interval ∧
    (((∃ p, (send_alert ⟨true, 0, 5, []⟩ "M" none false 100 "ct"
          TgOutcome.ok TgOutcome.ok).2.head? =
            some (TgStep.sendPhoto "M" p)) ∨
       (send_alert ⟨true, 0, 5, []⟩ "M" none false 100 "ct" TgOutcome.ok
          TgOutcome.ok).2.head? = some (TgStep.sendMessage "M")) ∧
     (TgOutcome.ok = TgOutcome.ok →
       (send_alert ⟨true, 0, 5, []⟩ "M" none false 100 "ct" TgOutcome.ok
          TgOutcome.ok).1.last_sent = 100) ∧
     (TgOutcome.ok ≠ TgOutcome.ok →
       (send_alert ⟨true, 0, 5, []⟩ "M" none false 100 "ct" TgOutcome.ok
          TgOutcome.ok).1.last_sent =
         (⟨true, 0, 5, []⟩ : TMState).last_sent)) :=
  ⟨by norm_num,
   (C8_rate_limit ⟨true, 0, 5, []⟩ "M" none false 100 "ct" TgOutcome.ok
      TgOutcome.ok rfl).2 (by norm_num)⟩

/-! ## Claim C7 — recognition threshold boundary -/

/-- The accumulator of `np_argmax` dominates its seed and every scanned
score. -/
theorem argmax_aux_le (xs : List ℚ) : ∀ (i bi : ℕ) (bv : ℚ),
    bv ≤ (argmax_aux xs i bi bv).2 ∧
    ∀ y ∈ xs, y ≤ (argmax_aux xs i bi bv).2 := by
  induction xs with
  | nil => intro i bi bv; simp [argmax_aux]
  | cons x xs ih =>
      intro i bi bv
      by_cases h : bv < x
      · simp only [argmax_aux, if_pos h]
        obtain ⟨h1, h2⟩ := ih (i + 1) i x
        refine ⟨le_of_lt (lt_of_lt_of_le h h1), ?_⟩
        intro y hy
        rcases List.mem_cons.mp hy with rfl | hmem
        · exact h1
        · exact h2 y hmem
      · simp only [argmax_aux, if_neg h]
        obtain ⟨h1, h2⟩ := ih (i + 1) bi bv
        refine ⟨h1, ?_⟩
        intro y hy
        rcases List.mem_cons.mp hy with rfl | hmem
        · exact le_trans (not_lt.mp h) h1
        · exact h2 y hmem

/-- The result of `np_argmax`'s accumulator is either the seed or a
position inside the scanned suffix holding the returned value. -/
theorem argmax_aux_attain (xs : List ℚ) : ∀ (i bi : ℕ) (bv : ℚ),
    ((argmax_aux xs i bi bv).1 = bi ∧ (argmax_aux xs i bi bv).2 = bv) ∨
    (∃ j, xs.get? j = some (argmax_aux xs i bi bv).2 ∧
      (argmax_aux xs i bi bv).1 = i + j) := by
  induction xs with
  | nil => intro i bi bv; exact Or.inl ⟨rfl, rfl⟩
  | cons x xs ih =>
      intro i bi bv
      by_cases h : bv < x
      · simp only [argmax_aux, if_pos h]
        rcases ih (i + 1) i x with ⟨h1, h2⟩ | ⟨j, hj, hij⟩
        · exact Or.inr ⟨0, by simp [h2], by simp [h1]⟩
        · exact Or.inr ⟨j + 1, by simpa using hj, by omega⟩
      · simp only [argmax_aux, if_neg h]
        rcases ih (i + 1) bi bv with hl | ⟨j, hj, hij⟩
        · exact Or.inl hl
        · exact Or.inr ⟨j + 1, by simpa using hj, by omega⟩

/-- `np_argmax` returns an index that holds the returned value. -/
theorem np_argmax_get (l : List ℚ) (hl : l ≠ []) :
    l.get? (np_argmax l).1 = some (np_argmax l).2 := by
  cases l with
  | nil => exact absurd rfl hl
  | cons x xs =>
      simp only [np_argmax]
      rcases argmax_aux_attain xs 1 0 x with ⟨h1, h2⟩ | ⟨j, hj, hij⟩
      · simp [h1, h2]
      · rw [hij, Nat.add_comm]
        simpa using hj

/-- `np_argmax` returns the maximum of the list. -/
theorem np_argmax_max (l : List ℚ) : ∀ y ∈ l, y ≤ (np_argmax l).2 := by
  cases l with
  | nil => simp
  | cons x xs =>
      intro y hy
      simp only [np_argmax]
      rcases List.mem_cons.mp hy with rfl | hmem
      · exact (argmax_aux_le xs 1 0 y).1
      · exact (argmax_aux_le xs 1 0 x).2 y hmem

/-- C7: with a non-empty gallery and a face with a non-empty embedding,
`recognize_faces` computes the maximum cosine similarity `mv` over the
gallery (first maximiser `mi`); a face whose maximum similarity equals the
threshold exactly is reported with no identity and with that similarity
(not zero), and a face whose maximum similarity exceeds the threshold is
reported with the gallery identity attaining it. -/
theorem C7_threshold_boundary (known_faces : List KnownFace) (threshold : ℚ)
    (face : Face) (hg : known_faces ≠ []) (he : face.embedding ≠ [])
    (mi : ℕ) (mv : ℚ)
    (hm : np_argmax (known_faces.map
        (fun kf => cosine_sim kf.embedding face.embedding)) = (mi, mv)) :
    (mv ∈ known_faces.map (fun kf => cosine_sim kf.embedding face.embedding) ∧
     ∀ kf ∈ known_faces, cosine_sim kf.embedding face.embedding ≤ mv) ∧
    (mv = threshold →
      recognize_faces known_faces threshold [face] = [(face, none, mv)]) ∧
    (threshold < mv →
      ∃ kf, known_faces.get? mi = some kf ∧
        cosine_sim kf.embedding face.embedding = mv ∧
        recognize_faces known_faces threshold [face] =
          [(face, some kf, mv)]) := by
  have hs : known_faces.map
      (fun kf => cosine_sim kf.embedding face.embedding) ≠ [] := by
    simpa using hg
  refine ⟨⟨?_, ?_⟩, ?_, ?_⟩
  · have h1 := np_argmax_get _ hs
    rw [hm] at h1
    exact List.get?_mem h1
  · intro kf hkf
    have h2 := np_argmax_max
      (known_faces.map (fun kf => cosine_sim kf.embedding face.embedding))
      (cosine_sim kf.embedding face.embedding)
      (List.mem_map_of_mem _ hkf)
    rwa [hm] at h2
  · intro heq
    subst heq
    simp [recognize_faces, hg, he, hm, lt_irrefl]
  · intro hlt
    have h1 := np_argmax_get _ hs
    rw [hm] at h1
    simp only [List.get?_map] at h1
    rcases Option.map_eq_some'.mp h1 with ⟨kf, hkf, hcos⟩
    have hkf' : known_faces[mi]? = some kf := by
      simpa [List.get?_eq_getElem?] using hkf
    refine ⟨kf, hkf, hcos, ?_⟩
    simp [recognize_faces, hg, he, hm, hlt, hkf, hkf']

/-- C7 witness: a one-identity gallery whose embedding coincides with the
face embedding gives similarity exactly one; with the threshold set to one
the face is reported unmatched but with similarity one. -/
theorem C7_threshold_boundary_witness :
    ([⟨"alice", [1, 0], "img"⟩] : List KnownFace) ≠ [] ∧
    (⟨[1, 0], none, none⟩ : Face).embedding ≠ [] ∧
    np_argmax (([⟨"alice", [1, 0], "img"⟩] : List KnownFace).map
      (fun kf => cosine_sim kf.embedding
        (⟨[1, 0], none, none⟩ : Face).embedding)) = (0, 1) ∧
    recognize_faces [⟨"alice", [1, 0], "img"⟩] 1 [⟨[1, 0], none, none⟩] =
      [(⟨[1, 0], none, none⟩, none, 1)] := by
  have hsq : Nat.sqrt 1 = 1 := by decide
  have hcos : cosine_sim [1, 0] [1, 0] = 1 := by
    norm_num [cosine_sim, np_dot, np_norm, ratSqrt, hsq]
  have hm : np_argmax (([⟨"alice", [1, 0], "img"⟩] : List KnownFace).map
      (fun kf => cosine_sim kf.embedding
        (⟨[1, 0], none, none⟩ : Face).embedding)) = (0, 1) := by
    simp [np_argmax, argmax_aux, hcos]
  exact ⟨by decide, by decide, hm,
    (C7_threshold_boundary [⟨"alice", [1, 0], "img"⟩] 1 ⟨[1, 0], none, none⟩
      (by decide) (by decide) 0 1 hm).2.1 rfl⟩

/-! ## Claim C10 — recency query over the alert history -/

/-- C10: `get_recent_alerts` returns at most `limit` events, each drawn
from `alert_history`, in non-increasing timestamp order, and leaves the
system state — in particular `alert_history` — unchanged. -/
theorem C10_recent_alerts (s : AlertSystemState) (limit : ℕ) :
    (get_recent_alerts s limit).1 = s ∧
    (get_recent_alerts s limit).2.length ≤ limit ∧
    (∀ e ∈ (get_recent_alerts s limit).2, e ∈ s.alert_history) ∧
    List.Pairwise (fun a b : AlertEvent => b.timestamp ≤ a.timestamp)
      (get_recent_alerts s limit).2 := by
  refine ⟨rfl, ?_, ?_, ?_⟩
  · simp only [get_recent_alerts]
    exact List.length_take_le _ _
  · intro e he
    simp only [get_recent_alerts] at he
    have h1 : e ∈ s.alert_history.mergeSort
        (fun a b => decide (b.timestamp ≤ a.timestamp)) :=
      List.take_subset _ _ he
    exact (List.mergeSort_perm s.alert_history
      (fun a b => decide (b.timestamp ≤ a.timestamp))).subset h1
  · simp only [get_recent_alerts]
    have hsorted := @List.sorted_mergeSort AlertEvent
      (fun a b => decide (b.timestamp ≤ a.timestamp))
      (fun a b c hab hbc => by
        simp only [decide_eq_true_eq] at *
        exact le_trans hbc hab)
      (fun a b => by
        simp only [Bool.or_eq_true, decide_eq_true_eq]
        exact le_total b.timestamp a.timestamp)
      s.alert_history
    have h2 : List.Pairwise
        (fun a b : AlertEvent => b.timestamp ≤ a.timestamp)
        (s.alert_history.mergeSort
          (fun a b => decide (b.timestamp ≤ a.timestamp))) :=
      hsorted.imp (fun h => by simpa using h)
    exact List.Pairwise.sublist (List.take_sublist _ _) h2

/-- An alert event with timestamp one, used in the C10 witness. -/
def sampleEventA : AlertEvent :=
  { camera_id := 1, camera_name := "Cam", face_name := "Alice",
    confidence := 1, timestamp := 1 }

/-- An alert event with timestamp three, used in the C10 witness. -/
def sampleEventB : AlertEvent :=
  { camera_id := 1, camera_name := "Cam", face_name := "Alice",
    confidence := 1, timestamp := 3 }

/-- C10 witness: on a two-event history with timestamps one and three and
limit one, the query returns exactly the later event, and the membership
clause of the theorem places it back in the history. -/
theorem C10_recent_alerts_witness :
    (get_recent_alerts
      { sampleState with alert_history := [sampleEventA, sampleEventB] }
      1).2 = [sampleEventB] ∧
    sampleEventB ∈
      ({ sampleState with alert_history := [sampleEventA, sampleEventB] } :
        AlertSystemState).alert_history := by
  have hd : (decide (sampleEventB.timestamp ≤ sampleEventA.timestamp))
      = false := by
    simp only [sampleEventA, sampleEventB, decide_eq_false_iff_not, not_le]
    norm_num
  have hres : (get_recent_alerts
      { sampleState with alert_history := [sampleEventA, sampleEventB] }
      1).2 = [sampleEventB] := by
    simp [get_recent_alerts, List.mergeSort, hd]
  refine ⟨hres, ?_⟩
  have := (C10_recent_alerts
    { sampleState with alert_history := [sampleEventA, sampleEventB] }
    1).2.2.1 sampleEventB (by rw [hres]; exact List.mem_singleton.mpr rfl)
  simpa using this

/-- C2 witness: the amended alias statement evaluated at camera 1 with two
distinct sound files. -/
theorem C2_alias_canonicalization_witness :
    screenshot_label "Unknown" = "unknown" ∧
    screenshot_label "unknown" = "unknown" ∧
    screenshot_label "未知" = "unknown" ∧
    screenshot_label "陌生人" = "unknown" :=
  (C2_alias_canonicalization 1 "alert.wav" "stranger.wav").1

/-- C5 witness: the amended read-failure statement evaluated on a slot
already holding a frame and a rotated camera. -/
theorem C5_read_failure_backoff_witness :
    capture_iteration false false (0 : ℕ) 90 (some 7) =
      (true, some 7, [CapAction.sleep 1]) :=
  C5_read_failure_backoff 0 90 (some 7)

/-- C6 witness: the drop-oldest statement evaluated on a slot holding a
stale frame and two fresh frames. -/
theorem C6_frame_slot_drop_oldest_witness :
    slot_tryGet (slot_put (slot_put (some (5 : ℕ)) 1) 2) = (some 2, none) :=
  (C6_frame_slot_drop_oldest (some 5) 1 2).1
